import Mathlib

/-!
Verification of the command execution and completion engine of the
`simpl_cli` hybrid shell.  The definitions below are shallow embeddings of
the Python source files `simpl_cli/commands/executor.py`,
`simpl_cli/completion.py` and `simpl_cli/config.py`.  Python strings are
modelled by Lean `String`, Python `dict`s by association lists, the process
environment by an association list of key/value pairs, and subprocess or
filesystem behaviour by explicit oracle parameters.
-/

namespace SimplCli

/-! ## Python string primitives

Executable models of the Python `str` operations used by the source:
`strip`, `startswith`, `endswith`, the `in` substring test, `split()` on
whitespace, `split(maxsplit=1)`, `split("\n")`, `split("=", 1)` and
`lower`. -/

/-- Python `str.strip()` on a character list: drop whitespace from both ends. -/
def pyStripList (l : List Char) : List Char :=
  ((l.dropWhile Char.isWhitespace).reverse.dropWhile Char.isWhitespace).reverse

/-- Python `str.strip()`. -/
def pyStrip (s : String) : String :=
  String.mk (pyStripList s.toList)

/-- Python `str.startswith(pat)`. -/
def pyStartsWith (s pat : String) : Bool :=
  List.isPrefixOf pat.toList s.toList

/-- Python `str.endswith(pat)`. -/
def pyEndsWith (s pat : String) : Bool :=
  List.isSuffixOf pat.toList s.toList

/-- Containment of one character list in another (Python `pat in s`). -/
def containsList (pat : List Char) : List Char → Bool
  | [] => pat.isEmpty
  | c :: cs => List.isPrefixOf pat (c :: cs) || containsList pat cs

/-- Python substring test `pat in s`. -/
def pyContains (s pat : String) : Bool :=
  containsList pat.toList s.toList

/-- Helper for Python `str.split()`: accumulate the current word in reverse. -/
def wordsAux (current : List Char) : List Char → List (List Char)
  | [] => if current.isEmpty then [] else [current.reverse]
  | c :: cs =>
    if c.isWhitespace then
      if current.isEmpty then wordsAux [] cs else current.reverse :: wordsAux [] cs
    else
      wordsAux (c :: current) cs

/-- Python `str.split()` with no arguments: split on whitespace runs,
discarding empty tokens. -/
def pySplitWords (s : String) : List String :=
  (wordsAux [] s.toList).map String.mk

/-- The remainder after the first whitespace-delimited token, as produced by
Python `s.split(maxsplit=1)[1]` (empty when there is no second part). -/
def pyDropFirstWord (s : String) : String :=
  String.mk
    (((s.toList.dropWhile Char.isWhitespace).dropWhile
        (fun c => ¬ c.isWhitespace)).dropWhile Char.isWhitespace)

/-- Python `str.lower()` (ASCII-adequate model). -/
def pyLower (s : String) : String :=
  String.mk (s.toList.map Char.toLower)

/-- Python `s.split("\n")` on a character list, keeping empty segments. -/
def splitLinesList : List Char → List (List Char)
  | [] => [[]]
  | c :: cs =>
    if c = '\n' then [] :: splitLinesList cs
    else
      match splitLinesList cs with
      | [] => [[c]]
      | t :: ts => (c :: t) :: ts

/-- Python `s.split("\n")`, keeping empty segments. -/
def pySplitLines (s : String) : List String :=
  (splitLinesList s.toList).map String.mk

/-- Python `line.split("=", 1)`: the text before the first `=` and the text
after it. -/
def splitFirstEq (line : String) : String × String :=
  (String.mk (line.toList.takeWhile (fun c => c ≠ '=')),
   String.mk ((line.toList.dropWhile (fun c => c ≠ '=')).drop 1))

/-- Python `os.path.basename` for POSIX paths: the text after the last `/`. -/
def pyBasename (s : String) : String :=
  String.mk ((s.toList.reverse.takeWhile (fun c => c ≠ '/')).reverse)

/-! ## Configuration (`simpl_cli/config.py`)

The two command-classification sets from `Config`. -/

namespace Config

/-- `Config.INTERACTIVE_COMMANDS` from `config.py`. -/
def INTERACTIVE_COMMANDS : List String :=
  ["nano", "vim", "vi", "emacs", "mc", "htop", "top", "fzf", "less", "more",
   "man", "tmux", "screen", "python3", "python", "node", "irb", "psql",
   "mysql", "nvim", "nu", "xonsh", "apt", "sudo", "sqlite3", "redis-cli",
   "mongo", "bash", "zsh", "fish"]

/-- `Config.STREAMING_COMMANDS` from `config.py`. -/
def STREAMING_COMMANDS : List String :=
  ["apt", "apt-get", "pip", "pip3", "npm", "pnpm", "yarn", "poetry",
   "composer", "cargo", "brew", "bundle", "go", "apk"]

end Config

/-! ## Fuzzy matching (`completion.py`, `DynamicPathCompleter._fuzzy_match`) -/

/-- The greedy scan inside `_fuzzy_match`: for each query character advance
through the candidate until the character is found; fail when the candidate
is exhausted. -/
def fuzzyScan : List Char → List Char → Bool
  | [], _ => true
  | _ :: _, [] => false
  | q :: qs, c :: cs => if c = q then fuzzyScan qs cs else fuzzyScan (q :: qs) cs

/-- `DynamicPathCompleter._fuzzy_match(candidate, query)`: empty query
matches; otherwise greedily match the lowercased query against the
lowercased candidate. -/
def fuzzyMatch (candidate query : String) : Bool :=
  if query = "" then true
  else fuzzyScan (pyLower query).toList (pyLower candidate).toList

/-! ## Interactive / streaming classification (`executor.py`) -/

/-- Python `command.split("|")` on a character list, keeping empty segments. -/
def splitOnCharList (sep : Char) : List Char → List (List Char)
  | [] => [[]]
  | c :: cs =>
    if c = sep then [] :: splitOnCharList sep cs
    else
      match splitOnCharList sep cs with
      | [] => [[c]]
      | t :: ts => (c :: t) :: ts

/-- Python `command.split("|")`, keeping empty segments. -/
def pySplitPipe (s : String) : List String :=
  (splitOnCharList '|' s.toList).map String.mk

/-- The per-segment loop of `_is_interactive_command`: take each pipe
segment's first token and test membership in the interactive set.  Python
indexes `[0]` into the token list, which raises `IndexError` on an empty
segment; `none` models that raised exception. -/
def interactiveSegmentScan : List String → Option Bool
  | [] => some false
  | p :: ps =>
    match pySplitWords (pyStrip p) with
    | [] => none
    | tok :: _ =>
      if tok ∈ Config.INTERACTIVE_COMMANDS then some true
      else interactiveSegmentScan ps

/-- `ShellCommandExecutor._is_interactive_command`.  `none` models an
`IndexError` escaping the method (empty input, or an empty pipe segment). -/
def isInteractiveCommand (command : String) : Option Bool :=
  match pySplitWords (pyStrip command) with
  | [] => none
  | base :: _ =>
    if base ∈ Config.INTERACTIVE_COMMANDS then some true
    else if pyContains command "|" then
      interactiveSegmentScan (pySplitPipe command)
    else some false

/-- `ShellCommandExecutor._should_stream_interactive_command`: unwrap a
leading `sudo` one token deep, take the basename, and test membership in the
streaming set. -/
def shouldStreamInteractiveCommand (command : String) : Bool :=
  match pySplitWords (pyStrip command) with
  | [] => false
  | base :: rest =>
    let baseCmd := if base = "sudo" ∧ rest ≠ [] then rest.headD "" else base
    Config.STREAMING_COMMANDS.contains (pyBasename baseCmd)

/-! ## Streaming process spawn with sudo credential handling
(`executor.py`, `_spawn_streaming_process` / `_prompt_sudo_password`) -/

/-- Outcome of `_spawn_streaming_process`.  `cancelled` models a `None`
return (no process spawned) after the given console message; `spawned`
records the command string passed to `subprocess.Popen` and the byte strings
written (and flushed) to the child's standard input right after spawn. -/
inductive SpawnOutcome
  | cancelled (msg : String)
  | spawned (cmd : String) (stdinWrites : List String)
deriving DecidableEq, Repr

/-- `_prompt_sudo_password` (prompt-toolkit path): `raw` is the collaborator
result, `none` when the prompt was interrupted; the entered text is stripped
and an empty result becomes `None`. -/
def promptSudoPassword (raw : Option String) : Option String :=
  match raw with
  | none => none
  | some s => if pyStrip s = "" then none else some (pyStrip s)

/-- `_spawn_streaming_process`: for a command whose stripped text starts with
`sudo `, prompt for a password, refuse to spawn on a cancelled/empty prompt,
rewrite the command to `sudo -S <rest>` and write the password plus a newline
to the child's standard input after spawning. -/
def spawnStreamingProcess (raw : Option String) (command : String) : SpawnOutcome :=
  if pyStartsWith (pyStrip command) "sudo " then
    match promptSudoPassword raw with
    | none => .cancelled "Cancelled command: sudo password not provided."
    | some password =>
      let rest := pyDropFirstWord (pyStrip command)
      if rest = "" then .cancelled "sudo requires a command to execute."
      else .spawned (pyStrip ("sudo -S " ++ rest)) [password ++ "\n"]
  else .spawned command []

/-! ## The cd built-in (`executor.py`, `_handle_cd_command`) -/

/-- Result of `_handle_cd_command`: the path handed to `os.chdir`, the
working directory afterwards, and the reported errors / context records. -/
structure CdResult where
  target : String
  cwd : String
  errors : List (String × String)
  contexts : List (String × String)
deriving DecidableEq, Repr

/-- The path handed to `os.chdir` by `_handle_cd_command`: the text after
`cd `, stripped, tilde-expanded, defaulting to the expansion of `~` when
empty. -/
def cdTargetPath (expanduser : String → String) (command : String) : String :=
  if pyStrip (String.mk (command.toList.drop 3)) = "" then expanduser "~"
  else expanduser (pyStrip (String.mk (command.toList.drop 3)))

/-- `_handle_cd_command`, over an abstract `expanduser` (the tilde expansion
done by `os.path.expanduser`) and an abstract `chdirErr` oracle giving the
`OSError` text when `os.chdir` fails (`none` = success).  On success the new
working directory is the target path (model of `os.getcwd()` after a
successful `os.chdir`). -/
def handleCdCommand (expanduser : String → String) (chdirErr : String → Option String)
    (cwd command : String) : CdResult :=
  match chdirErr (cdTargetPath expanduser command) with
  | none =>
    { target := cdTargetPath expanduser command
      cwd := cdTargetPath expanduser command
      errors := []
      contexts :=
        [(command, "Changed directory to: " ++ cdTargetPath expanduser command)] }
  | some err =>
    { target := cdTargetPath expanduser command
      cwd := cwd
      errors := [(command, "cd: " ++ err)]
      contexts := [(command, "cd: " ++ err)] }

/-! ## Regular command execution (`executor.py`, `_handle_regular_command`
and `_build_shell_invocation`) -/

/-- The `bash_builtins` list of `_handle_regular_command`. -/
def bashBuiltins : List String :=
  ["source", "export", "unset", "alias", "unalias", "declare", "typeset",
   "readonly"]

/-- The first whitespace-delimited token of the stripped command, empty for
blank input (`base_command` in `_handle_regular_command`). -/
def baseCommandOf (command : String) : String :=
  (pySplitWords (pyStrip command)).headD ""

/-- The `needs_shell_invocation` condition of `_handle_regular_command`. -/
def needsShellInvocation (command : String) : Bool :=
  pyContains command "source " || pyStartsWith command "source" ||
    bashBuiltins.contains (baseCommandOf command) ||
    pyContains command "&&" || pyContains command "||" ||
    pyContains command ";" ||
    pyContains command "export " || pyContains command "unset "

/-- How `_handle_regular_command` spawns the child on POSIX: either the
explicit argument vector built by `_build_shell_invocation`, or the command
string with `shell=True` and the configured shell as `executable`. -/
inductive RegularInvocation
  | argvShell (argv : List String)
  | shellString (cmd executable : String)
deriving DecidableEq, Repr

/-- `_build_shell_invocation` on POSIX. -/
def buildShellInvocation (shellPath command : String) : List String :=
  [shellPath, "-c", command]

/-- The spawn decision of `_handle_regular_command` on POSIX. -/
def regularInvocation (shellPath command : String) : RegularInvocation :=
  if needsShellInvocation command then
    .argvShell (buildShellInvocation shellPath command)
  else .shellString command shellPath

/-- Modelled from the spec (C5): the claimed needs-interpreter condition —
leading token among the shell-builtin keywords, or one of the substrings
listed in the spec.  Used only for comparison against
`needsShellInvocation`, which is the condition the source implements. -/
def claimedNeedsInterpreter (command : String) : Bool :=
  bashBuiltins.contains (baseCommandOf command) ||
    pyContains command "&&" || pyContains command "||" ||
    pyContains command ";" ||
    pyContains command "export " || pyContains command "unset "

/-! ## Environment reconciliation (`executor.py`,
`_execute_source_like_command`)

The process environment (Python `os.environ` and `dict` snapshots of it) is
modelled as an association list with the usual dict assignment semantics:
update in place when the key exists, append otherwise. -/

/-- Dict lookup on an association list. -/
def lookupAssoc {α : Type} (l : List (String × α)) (k : String) : Option α :=
  (l.find? (fun p => p.1 = k)).map (fun p => p.2)

/-- Dict assignment on an association list: overwrite in place, else append. -/
def setAssoc {α : Type} (l : List (String × α)) (k : String) (v : α) :
    List (String × α) :=
  if (l.find? (fun p => p.1 = k)).isSome then
    l.map (fun p => if p.1 = k then (k, v) else p)
  else l ++ [(k, v)]

/-- The process environment mapping. -/
abbrev Env := List (String × String)

/-- The key filter of `_execute_source_like_command`: the literal list
`["PS1", "PS2", "BASH_FUNC_*", "_"]` plus any key starting with
`BASH_FUNC_`. -/
def isExcludedEnvKey (k : String) : Bool :=
  (["PS1", "PS2", "BASH_FUNC_*", "_"] : List String).contains k ||
    pyStartsWith k "BASH_FUNC_"

/-- Mutable state threaded through the `env`-output parsing loop:
`new_vars`, `changed_vars` (key, old, new) and the live `os.environ`. -/
structure EnvDiffState where
  newVars : Env
  changedVars : List (String × String × String)
  env : Env
deriving DecidableEq, Repr

/-- Classification step of the `env`-output parsing loop: the key goes to
`new_vars` when absent from the `old_env` snapshot, to `changed_vars` when
present with a different value. -/
def envDiffClassify (oldEnv : Env) (st : EnvDiffState) (key value : String) :
    EnvDiffState :=
  match lookupAssoc oldEnv key with
  | none => { st with newVars := setAssoc st.newVars key value }
  | some old =>
    if old ≠ value then
      { st with changedVars := setAssoc st.changedVars key (old, value) }
    else st

/-- One iteration of the `for line in result.stdout.split("\n")` loop of
`_execute_source_like_command`: skip lines without `=` or starting with
`_=`, skip excluded keys, classify the key as added or changed against the
`old_env` snapshot, and write the value into the live environment. -/
def processEnvLine (oldEnv : Env) (st : EnvDiffState) (line : String) :
    EnvDiffState :=
  if pyContains line "=" && !(pyStartsWith line "_=") then
    if isExcludedEnvKey (splitFirstEq line).1 then st
    else
      { envDiffClassify oldEnv st (splitFirstEq line).1 (splitFirstEq line).2 with
          env := setAssoc
            (envDiffClassify oldEnv st (splitFirstEq line).1 (splitFirstEq line).2).env
            (splitFirstEq line).1 (splitFirstEq line).2 }
  else st

/-- Result of `_execute_source_like_command`: the live environment after the
call, the computed diff, the reported errors and context records, and
whether the success path was taken. -/
structure SourceLikeResult where
  env : Env
  newVars : Env
  changedVars : List (String × String × String)
  errors : List (String × String)
  contexts : List (String × String)
  succeeded : Bool
deriving DecidableEq, Repr

/-- `_execute_source_like_command`, given the `old_env` snapshot and the
child's exit code / captured output.  Only a zero exit code triggers the
environment diff and its application; otherwise an error built from the
stripped captured stderr (or `command failed` when empty) is reported and
the environment is untouched. -/
def executeSourceLikeCommand (oldEnv : Env) (originalCommand : String)
    (returncode : Int) (stdout stderr : String) : SourceLikeResult :=
  if returncode = 0 then
    let final := (pySplitLines stdout).foldl (processEnvLine oldEnv)
      { newVars := [], changedVars := [], env := oldEnv }
    let baseMsg := " " ++ originalCommand ++ " completed successfully"
    let successMsg :=
      if final.newVars ≠ [] ∨ final.changedVars ≠ [] then
        baseMsg ++ " (" ++ toString final.newVars.length ++ " new, " ++
          toString final.changedVars.length ++ " changed variables)"
      else baseMsg
    { env := final.env
      newVars := final.newVars
      changedVars := final.changedVars
      errors := []
      contexts := [(originalCommand, successMsg)]
      succeeded := true }
  else
    { env := oldEnv
      newVars := []
      changedVars := []
      errors := [(originalCommand, originalCommand ++ ": " ++
        (if pyStrip stderr = "" then "command failed" else pyStrip stderr))]
      contexts := [(originalCommand, originalCommand ++ ": " ++
        (if pyStrip stderr = "" then "command failed" else pyStrip stderr))]
      succeeded := false }

/-! ## Directory scanning and its cache (`completion.py`, `PathScanner` and
`CompletionManager.update_cache`; `executor.py`,
`_update_completion_if_needed`)

The filesystem is an oracle: a listing per path (with `os.path.isdir` /
`os.path.isfile` flags and the formatted metadata string produced by
`FileMetadata.get_file_info`) and a modification time per path (`none` when
the path does not exist or `getmtime` raises `OSError`, both of which make
`_get_cache_key` fall back to 0). -/

/-- One entry returned by `os.listdir`, together with its `isdir`/`isfile`
classification and formatted metadata string. -/
structure FSEntry where
  name : String
  isDir : Bool
  isFile : Bool
  metaInfo : String
deriving DecidableEq, Repr

/-- The filesystem oracle. -/
structure FileSystem where
  listDir : String → Option (List FSEntry)
  mtimeOf : String → Option Nat

/-- `PathScanner._get_cache_key`: `f"{path}:{mtime}"` with a 0 fallback. -/
def cacheKey (fs : FileSystem) (path : String) : String :=
  path ++ ":" ++ toString ((fs.mtimeOf path).getD 0)

/-- The value cached per directory by `PathScanner.scan_directory`. -/
structure ScanResult where
  files : List String
  directories : List String
  metaDict : List (String × String)
deriving DecidableEq, Repr

/-- The `PathScanner._cache` dictionary. -/
abbrev ScanCache := List (String × ScanResult)

/-- Sorting used for the `sorted(files)` / `sorted(directories)` calls. -/
def sortStrings (l : List String) : List String :=
  l.mergeSort (fun a b => decide (a ≤ b))

/-- The listing computation of `PathScanner.scan_directory` on a cache miss
(default `include_hidden=False`): skip dot entries, record metadata for
every visible entry, then classify directories before files and sort the
two name lists. -/
def freshScan (fs : FileSystem) (path : String) : ScanResult :=
  { files := sortStrings
      ((((fs.listDir path).getD []).filter
          (fun e => !(pyStartsWith e.name ".") && !e.isDir && e.isFile)).map
        (fun e => e.name))
    directories := sortStrings
      ((((fs.listDir path).getD []).filter
          (fun e => !(pyStartsWith e.name ".") && e.isDir)).map
        (fun e => e.name))
    metaDict := (((fs.listDir path).getD []).filter
        (fun e => !(pyStartsWith e.name "."))).map
      (fun e => (e.name, e.metaInfo)) }

/-- `PathScanner.scan_directory`: return the cached result when the
`(path, mtime)` key is present, otherwise compute the listing and store it
under that key. -/
def scanDirectory (fs : FileSystem) (cache : ScanCache) (path : String) :
    ScanResult × ScanCache :=
  match lookupAssoc cache (cacheKey fs path) with
  | some r => (r, cache)
  | none => (freshScan fs path, setAssoc cache (cacheKey fs path) (freshScan fs path))

/-- `CompletionManager.update_cache`: delete the current `(path, mtime)` key
from the scanner cache. -/
def updateCacheAt (fs : FileSystem) (cache : ScanCache) (path : String) : ScanCache :=
  cache.filter (fun p => p.1 ≠ cacheKey fs path)

/-- The `modify_commands` list of `_update_completion_if_needed`. -/
def modifyCommands : List String :=
  ["touch", "mkdir", "rm", "rmdir", "mv", "cp", "ln"]

/-- `ShellCommandExecutor._update_completion_if_needed`: invalidate the
working directory's cache entry when the first token is a file-mutating
command.  (On blank input Python would raise `IndexError`; that case is
unreachable because `execute` rejects blank input before dispatching.) -/
def updateCompletionIfNeeded (fs : FileSystem) (cache : ScanCache)
    (cwd command : String) : ScanCache :=
  match pySplitWords (pyStrip command) with
  | [] => cache
  | base :: _ =>
    if modifyCommands.contains base then updateCacheAt fs cache cwd else cache

/-! ## Completion protocol bridge (`completion.py`, `BashCompletionRunner`)

Subprocess behaviour is abstracted into an oracle: the registrations parsed
from the global `complete -p` run (empty when that subprocess failed), the
script file found for a command by `_find_completion_file`, and the
registrations parsed after sourcing a found script (empty when the scoped
`complete -p` subprocess failed). -/

/-- The mutable state of `BashCompletionRunner`: `_completion_map` (`none`
until the lazy global bootstrap has run; entries map a command name to its
registered completion-function name) and `_attempted_commands`. -/
structure BridgeState where
  completionMap : Option (List (String × String))
  attempted : List String
deriving DecidableEq, Repr

/-- The subprocess/filesystem oracle for the bridge. -/
structure BridgeEnv where
  initialRegistrations : List (String × String)
  findCompletionFile : String → Option String
  scriptRegistrations : String → String → List (String × String)

/-- `BashCompletionRunner._ensure_completion_map`: build the map once. -/
def ensureCompletionMap (env : BridgeEnv) (st : BridgeState) : BridgeState :=
  match st.completionMap with
  | some _ => st
  | none => { st with completionMap := some env.initialRegistrations }

/-- `BashCompletionRunner._prepare_for_command`.  The returned flag is true
exactly when the call performed script discovery for the name (searched the
completion directories and, when a script was found, sourced it and re-ran
`complete -p`); registrations found that way are merged into the map with
dict-assignment semantics. -/
def prepareForCommand (env : BridgeEnv) (st : BridgeState) (commandName : String) :
    BridgeState × Bool :=
  if ((ensureCompletionMap env st).completionMap.getD []) ≠ [] ∧
      (lookupAssoc ((ensureCompletionMap env st).completionMap.getD [])
        commandName).isSome then
    (ensureCompletionMap env st, false)
  else if commandName ∈ (ensureCompletionMap env st).attempted then
    (ensureCompletionMap env st, false)
  else
    match env.findCompletionFile commandName with
    | none =>
      ({ ensureCompletionMap env st with
          attempted := commandName :: (ensureCompletionMap env st).attempted },
       true)
    | some script =>
      ({ completionMap := some
          ((env.scriptRegistrations script commandName).foldl
            (fun acc p => setAssoc acc p.1 p.2)
            ((ensureCompletionMap env st).completionMap.getD []))
         attempted := commandName :: (ensureCompletionMap env st).attempted },
       true)

/-- A session trace: run `_prepare_for_command` on each requested name in
order, recording for each call whether it performed script discovery. -/
def prepareTrace (env : BridgeEnv) : BridgeState → List String → List (String × Bool)
  | _, [] => []
  | st, n :: ns =>
    (n, (prepareForCommand env st n).2) ::
      prepareTrace env (prepareForCommand env st n).1 ns

/-- How many calls in a trace performed script discovery for `name`. -/
def discoveryCount (trace : List (String × Bool)) (name : String) : Nat :=
  (trace.filter (fun p => p.1 = name && p.2)).length

/-! ## The execute façade (`executor.py`, `ShellCommandExecutor.execute`)

The dispatched handlers are abstracted by their fault behaviour: a handler
invocation either returns normally or raises `KeyboardInterrupt` or an
`Exception` with a message.  `execute` wraps the whole dispatch in
`try/except KeyboardInterrupt/except Exception`. -/

/-- A fault propagating out of a dispatched handler. -/
inductive HandlerFault
  | interrupt
  | exception (msg : String)
deriving DecidableEq, Repr

/-- User-visible effects produced by `execute` itself: `ui.display_error`
calls, `context_manager.add_shell_context` records, and
`ui.display_interrupt` notices. -/
structure ExecuteEffects where
  errors : List (String × String)
  contexts : List (String × String)
  interruptNotices : Nat
deriving DecidableEq, Repr

/-- Run the dispatched handler with the given fault behaviour. -/
def handlerRun (hf : Option HandlerFault) : Except HandlerFault Unit :=
  match hf with
  | none => Except.ok ()
  | some f => Except.error f

/-- The body of `execute` inside the `try` block: the dispatch chain of
lines 41-77.  Every branch except the bare `exit` comparison invokes a
handler (modelled by `handlerRun hf`) and then returns `None`; the `exit`
branch returns the string `exit` without any handler call. -/
def executeBody (hf : Option HandlerFault) (command : String) :
    Except HandlerFault (Option String) :=
  if pyStrip command = "/help" then do handlerRun hf; pure none
  else if pyStartsWith command "!" then do handlerRun hf; pure none
  else if pyStrip command = "exit" then pure (some "exit")
  else if pyStrip command = "clear" then do handlerRun hf; pure none
  else if pyStrip command = "cd" ∨ pyStartsWith (pyStrip command) "cd " then do
    handlerRun hf; pure none
  else if pyStartsWith (pyStrip command) "source " then do handlerRun hf; pure none
  else if pyStrip command = "deactivate" then do handlerRun hf; pure none
  else if pyEndsWith (pyStrip command) "/activate" ∨
      pyEndsWith (pyStrip command) "\\activate" ∨
      pyStartsWith (pyStrip command) "activate " then do handlerRun hf; pure none
  else do handlerRun hf; pure none

/-- `ShellCommandExecutor.execute`: blank input short-circuits; a
`KeyboardInterrupt` escaping a handler is answered with an interrupt notice
only; an `Exception` is answered with a displayed error and a context
record; the return value is `None` except for the `exit` built-in. -/
def execute (hf : Option HandlerFault) (command : String) :
    Option String × ExecuteEffects :=
  if pyStrip command = "" then (none, ⟨[], [], 0⟩)
  else
    match executeBody hf command with
    | Except.ok r => (r, ⟨[], [], 0⟩)
    | Except.error HandlerFault.interrupt => (none, ⟨[], [], 1⟩)
    | Except.error (HandlerFault.exception m) =>
      (none, ⟨[(command, "Error: " ++ m)], [(command, "Error: " ++ m)], 0⟩)

/-! ## Theorems -/

theorem fuzzyScan_eq_true_of_sublist :
    ∀ {qs cs : List Char}, List.Sublist qs cs → fuzzyScan qs cs = true := by
  intro qs cs h
  induction cs generalizing qs with
  | nil =>
    cases h
    rfl
  | cons c cs ih =>
    cases qs with
    | nil => rfl
    | cons q qs' =>
      by_cases hc : c = q
      · subst hc
        have h' : List.Sublist qs' cs := by
          exact (List.cons_sublist_cons).mp h
        simp [fuzzyScan, ih h']
      · have h' : List.Sublist (q :: qs') cs := by
          rcases (List.sublist_cons_iff).mp h with h1 | ⟨r, hr, _⟩
          · exact h1
          · exact absurd (by injection hr with h2 _; exact h2.symm) hc
        simp [fuzzyScan, hc, ih h']

theorem fuzzyScan_sublist_of_eq_true :
    ∀ {qs cs : List Char}, fuzzyScan qs cs = true → List.Sublist qs cs := by
  intro qs cs h
  induction cs generalizing qs with
  | nil =>
    cases qs with
    | nil => exact List.Sublist.refl []
    | cons q qs' => simp [fuzzyScan] at h
  | cons c cs ih =>
    cases qs with
    | nil => exact List.nil_sublist _
    | cons q qs' =>
      by_cases hc : c = q
      · subst hc
        simp only [fuzzyScan, if_pos rfl] at h
        exact (List.cons_sublist_cons).mpr (ih h)
      · simp only [fuzzyScan, if_neg hc] at h
        exact List.Sublist.cons c (ih h)

/-- C9: `fuzzyMatch candidate query` is true exactly when the lowercased
query is a (not necessarily contiguous) subsequence of the lowercased
candidate; `fuzzyMatch "main.py" "mp"` is true, `fuzzyMatch "main.py" "pm"`
is false, and every candidate matches the empty query. -/
theorem c9_fuzzy_match_spec :
    (∀ candidate query : String,
        fuzzyMatch candidate query = true ↔
          List.Sublist (pyLower query).toList (pyLower candidate).toList) ∧
    fuzzyMatch "main.py" "mp" = true ∧
    fuzzyMatch "main.py" "pm" = false ∧
    (∀ candidate : String, fuzzyMatch candidate "" = true) := by
  refine ⟨?_, by decide, by decide, ?_⟩
  · intro candidate query
    constructor
    · intro h
      by_cases hq : query = ""
      · subst hq
        simp [pyLower, String.mk]
      · simp only [fuzzyMatch, if_neg hq] at h
        exact fuzzyScan_sublist_of_eq_true h
    · intro h
      by_cases hq : query = ""
      · simp [fuzzyMatch, hq]
      · simp only [fuzzyMatch, if_neg hq]
        exact fuzzyScan_eq_true_of_sublist h
  · intro candidate
    simp [fuzzyMatch]

/-- C2 counterexample: the interactive decision for `sudo ls` is not the
decision that would be made for `ls` (the code never unwraps `sudo` in
`_is_interactive_command`; `sudo ls` is interactive only because `sudo`
itself belongs to `INTERACTIVE_COMMANDS`, while `ls` is not interactive). -/
theorem c2_counterexample :
    isInteractiveCommand "sudo ls" = some true ∧
    isInteractiveCommand "ls" = some false := by
  constructor
  · decide
  · decide

/-- C2 (amended): the streaming decision for `sudo <cmd>` is made on the
basename of `<cmd>`'s first token (one-token-deep unwrapping), while the
interactive decision does not unwrap at all: every command whose first token
is `sudo` is classified interactive because `sudo` is itself a member of
`INTERACTIVE_COMMANDS`; in particular `sudo vim` is interactive. -/
theorem c2_sudo_classification (command t : String) (ts : List String)
    (h : pySplitWords (pyStrip command) = "sudo" :: t :: ts) :
    isInteractiveCommand command = some true ∧
    shouldStreamInteractiveCommand command =
      Config.STREAMING_COMMANDS.contains (pyBasename t) ∧
    isInteractiveCommand "sudo vim" = some true := by
  refine ⟨?_, ?_, by decide⟩
  · unfold isInteractiveCommand
    rw [h]
    simp [Config.INTERACTIVE_COMMANDS]
  · unfold shouldStreamInteractiveCommand
    rw [h]
    simp

/-- Closed instance of `c2_sudo_classification` at `sudo apt update`. -/
theorem c2_sudo_classification_witness :
    isInteractiveCommand "sudo apt update" = some true ∧
    shouldStreamInteractiveCommand "sudo apt update" =
      Config.STREAMING_COMMANDS.contains (pyBasename "apt") ∧
    isInteractiveCommand "sudo vim" = some true :=
  c2_sudo_classification "sudo apt update" "apt" ["update"] (by decide)

theorem wordsAux_sudo_space (u : List Char) :
    wordsAux [] ('s' :: 'u' :: 'd' :: 'o' :: ' ' :: u) =
      ['s', 'u', 'd', 'o'] :: wordsAux [] u := by
  simp [wordsAux]

theorem wordsAux_nil_of_all_ws :
    ∀ u : List Char, (∀ c ∈ u, c.isWhitespace = true) → wordsAux [] u = [] := by
  intro u h
  induction u with
  | nil => rfl
  | cons c cs ih =>
    have hc := h c (by simp)
    have hstep : wordsAux [] (c :: cs) = wordsAux [] cs := by
      simp [wordsAux, hc]
    rw [hstep]
    exact ih (fun x hx => h x (by simp [hx]))

/-- C6: for a streaming command whose stripped text begins with `sudo `, a
cancelled or empty password prompt yields the no-spawn cancel outcome, and a
provided password leads to spawning `sudo -S <rest>` with the password plus
a newline written to the child's standard input. -/
theorem c6_sudo_streaming (command : String) (raw : Option String)
    (hstream : shouldStreamInteractiveCommand command = true)
    (hsudo : pyStartsWith (pyStrip command) "sudo " = true) :
    (promptSudoPassword raw = none →
       spawnStreamingProcess raw command =
         .cancelled "Cancelled command: sudo password not provided.") ∧
    (∀ s, pyStrip s = "" → promptSudoPassword (some s) = none) ∧
    promptSudoPassword none = none ∧
    (∀ pw, promptSudoPassword raw = some pw →
       spawnStreamingProcess raw command =
         .spawned (pyStrip ("sudo -S " ++ pyDropFirstWord (pyStrip command)))
           [pw ++ "\n"]) := by
  have hpre : ("sudo ".toList) <+: (pyStrip command).toList :=
    (List.isPrefixOf_iff_prefix).mp hsudo
  obtain ⟨u, hu⟩ := hpre
  have htoL : (pyStrip command).toList = 's' :: 'u' :: 'd' :: 'o' :: ' ' :: u := by
    rw [← hu]
    rfl
  have hwords : pySplitWords (pyStrip command) =
      "sudo" :: (wordsAux [] u).map String.mk := by
    unfold pySplitWords
    rw [htoL, wordsAux_sudo_space]
    rfl
  have hne : (wordsAux [] u) ≠ [] := by
    intro hnil
    unfold shouldStreamInteractiveCommand at hstream
    rw [hwords, hnil] at hstream
    simp at hstream
    exact absurd hstream (by decide)
  have hdropne : u.dropWhile Char.isWhitespace ≠ [] := by
    intro hnil
    exact hne (wordsAux_nil_of_all_ws u ((List.dropWhile_eq_nil_iff).mp hnil))
  have hrest : pyDropFirstWord (pyStrip command) =
      String.mk (u.dropWhile Char.isWhitespace) := by
    unfold pyDropFirstWord
    rw [htoL]
    simp [List.dropWhile]
  have hrestne : pyDropFirstWord (pyStrip command) ≠ "" := by
    rw [hrest]
    intro hcontra
    exact hdropne (congrArg String.toList hcontra)
  refine ⟨?_, ?_, rfl, ?_⟩
  · intro hnone
    unfold spawnStreamingProcess
    rw [if_pos hsudo, hnone]
  · intro s hs
    simp [promptSudoPassword, hs]
  · intro pw hpw
    unfold spawnStreamingProcess
    rw [if_pos hsudo, hpw]
    simp [hrestne]

/-- Closed instance of `c6_sudo_streaming`: `sudo apt update` with password
`hunter2` spawns `sudo -S apt update` and writes the password plus newline;
with a cancelled prompt nothing is spawned. -/
theorem c6_sudo_streaming_witness :
    spawnStreamingProcess (some "hunter2") "sudo apt update" =
      .spawned (pyStrip ("sudo -S " ++ pyDropFirstWord (pyStrip "sudo apt update")))
        ["hunter2" ++ "\n"] ∧
    spawnStreamingProcess none "sudo apt update" =
      .cancelled "Cancelled command: sudo password not provided." :=
  ⟨(c6_sudo_streaming "sudo apt update" (some "hunter2") (by decide) (by decide)).2.2.2
      "hunter2" (by decide),
   (c6_sudo_streaming "sudo apt update" none (by decide) (by decide)).1 rfl⟩

/-- C10: the input `cd` with no argument targets the expansion of `~` (and
moves there when `os.chdir` succeeds), and `cd <path>` hands the
tilde-expanded stripped path to `os.chdir`. -/
theorem c10_cd_tilde_expansion (expanduser : String → String)
    (chdirErr : String → Option String) (cwd : String) :
    (handleCdCommand expanduser chdirErr cwd "cd").target = expanduser "~" ∧
    (chdirErr (expanduser "~") = none →
       (handleCdCommand expanduser chdirErr cwd "cd").cwd = expanduser "~") ∧
    (∀ p, pyStrip p ≠ "" →
       (handleCdCommand expanduser chdirErr cwd ("cd " ++ p)).target =
         expanduser (pyStrip p)) := by
  have htgt0 : cdTargetPath expanduser "cd" = expanduser "~" := by
    unfold cdTargetPath
    rw [if_pos (by decide)]
  have htgt : ∀ p, pyStrip p ≠ "" →
      cdTargetPath expanduser ("cd " ++ p) = expanduser (pyStrip p) := by
    intro p hp
    unfold cdTargetPath
    have hdrop : String.mk (("cd " ++ p).toList.drop 3) = p := rfl
    rw [hdrop, if_neg hp]
  refine ⟨?_, ?_, ?_⟩
  · unfold handleCdCommand
    cases chdirErr (cdTargetPath expanduser "cd") <;> simpa using htgt0
  · intro hok
    unfold handleCdCommand
    rw [htgt0, hok]
  · intro p hp
    unfold handleCdCommand
    cases chdirErr (cdTargetPath expanduser ("cd " ++ p)) <;> simpa using htgt p hp

/-- Closed instance of `c10_cd_tilde_expansion` with a concrete expander and
a filesystem where every chdir succeeds. -/
theorem c10_cd_tilde_expansion_witness :
    (handleCdCommand (fun s => if s = "~" then "/home/user" else s)
        (fun _ => none) "/tmp" "cd").target = "/home/user" ∧
    (handleCdCommand (fun s => if s = "~" then "/home/user" else s)
        (fun _ => none) "/tmp" "cd").cwd = "/home/user" ∧
    (handleCdCommand (fun s => if s = "~" then "/home/user" else s)
        (fun _ => none) "/tmp" "cd work").target = "work" := by
  have h := c10_cd_tilde_expansion (fun s => if s = "~" then "/home/user" else s)
    (fun _ => none) "/tmp"
  exact ⟨h.1, h.2.1 rfl, h.2.2 "work" (by decide)⟩

/-- C5 counterexample: `echo source x` has leading token `echo` and none of
the spec's substrings, yet the code routes it through `<shell> -c` because
of the extra `"source " in command` test. -/
theorem c5_counterexample :
    needsShellInvocation "echo source x" = true ∧
    claimedNeedsInterpreter "echo source x" = false ∧
    regularInvocation "/bin/bash" "echo source x" =
      .argvShell ["/bin/bash", "-c", "echo source x"] := by
  refine ⟨by decide, by decide, ?_⟩
  unfold regularInvocation
  rw [if_pos (by decide)]
  rfl

/-- C5 (amended): a Regular command is run as the explicit `<shell> -c
<text>` argument vector exactly when `needs_shell_invocation` holds, and
that condition is the spec's condition extended with two more triggers: the
substring `source ` anywhere in the text, and the text starting with
`source`. -/
theorem c5_interpreter_condition (shellPath command : String) :
    (regularInvocation shellPath command =
        .argvShell [shellPath, "-c", command] ↔
      needsShellInvocation command = true) ∧
    needsShellInvocation command =
      (claimedNeedsInterpreter command || pyContains command "source " ||
        pyStartsWith command "source") := by
  constructor
  · unfold regularInvocation buildShellInvocation
    cases h : needsShellInvocation command <;> simp
  · unfold needsShellInvocation claimedNeedsInterpreter
    cases pyContains command "source " <;>
      cases pyStartsWith command "source" <;>
      cases bashBuiltins.contains (baseCommandOf command) <;>
      cases pyContains command "&&" <;>
      cases pyContains command "||" <;>
      cases pyContains command ";" <;>
      cases pyContains command "export " <;>
      cases pyContains command "unset " <;> rfl

theorem find?_key_map_set {α : Type} (l : List (String × α)) (k k' : String)
    (v : α) :
    List.find? (fun p => decide (p.1 = k))
        (l.map (fun p => if p.1 = k' then (k', v) else p)) =
      Option.map (fun p => if p.1 = k' then (k', v) else p)
        (List.find? (fun p => decide (p.1 = k)) l) := by
  rw [List.find?_map]
  have hfun : ((fun p : String × α => decide (p.1 = k)) ∘
      fun p => if p.1 = k' then (k', v) else p) =
      (fun p : String × α => decide (p.1 = k)) := by
    funext e
    by_cases he : e.1 = k'
    · simp [Function.comp, he]
    · simp [Function.comp, he]
  rw [hfun]

theorem lookupAssoc_setAssoc_ne {α : Type} (l : List (String × α))
    (k k' : String) (v : α) (h : k' ≠ k) :
    lookupAssoc (setAssoc l k' v) k = lookupAssoc l k := by
  unfold setAssoc lookupAssoc
  split
  · rw [find?_key_map_set]
    cases hf : List.find? (fun p => decide (p.1 = k)) l with
    | none => rfl
    | some e =>
      have he : e.1 = k := by simpa using List.find?_some hf
      have hee : (if e.1 = k' then (k', v) else e) = e := by
        rw [if_neg]
        rw [he]
        exact fun hkk => h hkk.symm
      simp [hee]
  · rw [List.find?_append]
    cases hf : List.find? (fun p => decide (p.1 = k)) l with
    | none => simp [List.find?, h]
    | some e => rfl

theorem lookupAssoc_setAssoc_self {α : Type} (l : List (String × α))
    (k : String) (v : α) :
    lookupAssoc (setAssoc l k v) k = some v := by
  unfold setAssoc lookupAssoc
  split
  · rename_i hfound
    rw [find?_key_map_set]
    obtain ⟨e, he⟩ := Option.isSome_iff_exists.mp hfound
    rw [he]
    have he1 : e.1 = k := by simpa using List.find?_some he
    simp [he1]
  · rename_i hnot
    have hnone : List.find? (fun p : String × α => decide (p.1 = k)) l = none :=
      Option.not_isSome_iff_eq_none.mp hnot
    rw [List.find?_append, hnone]
    simp [List.find?]

theorem envDiffClassify_preserves (oldEnv : Env) (st : EnvDiffState)
    (key value k : String) (hne : key ≠ k) :
    lookupAssoc (envDiffClassify oldEnv st key value).newVars k =
      lookupAssoc st.newVars k ∧
    lookupAssoc (envDiffClassify oldEnv st key value).changedVars k =
      lookupAssoc st.changedVars k ∧
    (envDiffClassify oldEnv st key value).env = st.env := by
  unfold envDiffClassify
  cases lookupAssoc oldEnv key with
  | none => exact ⟨lookupAssoc_setAssoc_ne st.newVars k key value hne, rfl, rfl⟩
  | some old =>
    dsimp only
    by_cases hchg : old ≠ value
    · rw [if_pos hchg]
      exact ⟨rfl, lookupAssoc_setAssoc_ne st.changedVars k key (old, value) hne, rfl⟩
    · rw [if_neg hchg]
      exact ⟨rfl, rfl, rfl⟩

theorem processEnvLine_preserves_excluded (oldEnv : Env) (k : String)
    (hk : isExcludedEnvKey k = true) (st : EnvDiffState) (line : String) :
    lookupAssoc (processEnvLine oldEnv st line).newVars k =
      lookupAssoc st.newVars k ∧
    lookupAssoc (processEnvLine oldEnv st line).changedVars k =
      lookupAssoc st.changedVars k ∧
    lookupAssoc (processEnvLine oldEnv st line).env k =
      lookupAssoc st.env k := by
  unfold processEnvLine
  split
  · split
    · exact ⟨rfl, rfl, rfl⟩
    · rename_i hnotexcl
      have hne : (splitFirstEq line).1 ≠ k := by
        intro heq
        apply hnotexcl
        rw [heq]
        exact hk
      have hcls := envDiffClassify_preserves oldEnv st (splitFirstEq line).1
        (splitFirstEq line).2 k hne
      refine ⟨hcls.1, hcls.2.1, ?_⟩
      show lookupAssoc (setAssoc (envDiffClassify oldEnv st (splitFirstEq line).1
        (splitFirstEq line).2).env (splitFirstEq line).1 (splitFirstEq line).2) k =
        lookupAssoc st.env k
      rw [lookupAssoc_setAssoc_ne _ k (splitFirstEq line).1 (splitFirstEq line).2 hne,
        hcls.2.2]
  · exact ⟨rfl, rfl, rfl⟩

theorem foldl_processEnvLine_preserves_excluded (oldEnv : Env) (k : String)
    (hk : isExcludedEnvKey k = true) :
    ∀ (lines : List String) (st : EnvDiffState),
      lookupAssoc ((lines.foldl (processEnvLine oldEnv) st)).newVars k =
        lookupAssoc st.newVars k ∧
      lookupAssoc ((lines.foldl (processEnvLine oldEnv) st)).changedVars k =
        lookupAssoc st.changedVars k ∧
      lookupAssoc ((lines.foldl (processEnvLine oldEnv) st)).env k =
        lookupAssoc st.env k := by
  intro lines
  induction lines with
  | nil => intro st; exact ⟨rfl, rfl, rfl⟩
  | cons line rest ih =>
    intro st
    have h1 := processEnvLine_preserves_excluded oldEnv k hk st line
    have h2 := ih (processEnvLine oldEnv st line)
    exact ⟨h2.1.trans h1.1, h2.2.1.trans h1.2.1, h2.2.2.trans h1.2.2⟩

/-- C4: on the success path the computed diff never mentions `PS1`, `PS2`,
`_` or any `BASH_FUNC_`-prefixed key, and the diff-application step never
writes such a key into the live environment, whatever the child's `env`
output was. -/
theorem c4_excluded_keys_invariant (oldEnv : Env) (cmd stdout stderr k : String)
    (hk : k = "PS1" ∨ k = "PS2" ∨ k = "_" ∨ pyStartsWith k "BASH_FUNC_" = true) :
    lookupAssoc (executeSourceLikeCommand oldEnv cmd 0 stdout stderr).newVars k =
      none ∧
    lookupAssoc (executeSourceLikeCommand oldEnv cmd 0 stdout stderr).changedVars k =
      none ∧
    lookupAssoc (executeSourceLikeCommand oldEnv cmd 0 stdout stderr).env k =
      lookupAssoc oldEnv k := by
  have hexcl : isExcludedEnvKey k = true := by
    rcases hk with h | h | h | h
    · subst h; decide
    · subst h; decide
    · subst h; decide
    · unfold isExcludedEnvKey
      rw [h]
      simp
  have hfold := foldl_processEnvLine_preserves_excluded oldEnv k hexcl
    (pySplitLines stdout) { newVars := [], changedVars := [], env := oldEnv }
  unfold executeSourceLikeCommand
  rw [if_pos rfl]
  exact ⟨hfold.1, hfold.2.1, hfold.2.2⟩

/-- Closed instance of `c4_excluded_keys_invariant`: even when the child
changes `PS1` and defines a `BASH_FUNC_` key, neither reaches the diff nor
the live environment. -/
theorem c4_excluded_keys_invariant_witness :
    lookupAssoc (executeSourceLikeCommand [("PS1", "old"), ("A", "1")] "source x"
      0 "PS1=new\nBASH_FUNC_f%%=somebody\nFOO=bar" "").newVars "PS1" = none ∧
    lookupAssoc (executeSourceLikeCommand [("PS1", "old"), ("A", "1")] "source x"
      0 "PS1=new\nBASH_FUNC_f%%=somebody\nFOO=bar" "").changedVars "PS1" = none ∧
    lookupAssoc (executeSourceLikeCommand [("PS1", "old"), ("A", "1")] "source x"
      0 "PS1=new\nBASH_FUNC_f%%=somebody\nFOO=bar" "").env "PS1" =
      lookupAssoc [("PS1", "old"), ("A", "1")] "PS1" :=
  c4_excluded_keys_invariant [("PS1", "old"), ("A", "1")] "source x"
    "PS1=new\nBASH_FUNC_f%%=somebody\nFOO=bar" "" "PS1" (Or.inl rfl)

/-- C3: the environment diff is computed and applied only on a zero exit
code; a non-zero exit reports one error containing the stripped captured
stderr (or `command failed` when it is empty), records the same context
line, leaves the live environment untouched and produces an empty diff,
while a zero exit reports no error. -/
theorem c3_nonzero_exit_reports_error (oldEnv : Env) (cmd : String)
    (rc : Int) (stdout stderr : String) (h : rc ≠ 0) :
    (executeSourceLikeCommand oldEnv cmd rc stdout stderr).env = oldEnv ∧
    (executeSourceLikeCommand oldEnv cmd rc stdout stderr).newVars = [] ∧
    (executeSourceLikeCommand oldEnv cmd rc stdout stderr).changedVars = [] ∧
    (executeSourceLikeCommand oldEnv cmd rc stdout stderr).succeeded = false ∧
    (executeSourceLikeCommand oldEnv cmd rc stdout stderr).errors =
      [(cmd, cmd ++ ": " ++
        (if pyStrip stderr = "" then "command failed" else pyStrip stderr))] ∧
    (executeSourceLikeCommand oldEnv cmd 0 stdout stderr).errors = [] := by
  unfold executeSourceLikeCommand
  rw [if_neg h, if_pos rfl]
  exact ⟨rfl, rfl, rfl, rfl, rfl, rfl⟩

/-- Closed instance of `c3_nonzero_exit_reports_error` at exit code 1 with
stderr `boom`. -/
theorem c3_nonzero_exit_reports_error_witness :
    (executeSourceLikeCommand [("A", "1")] "source env.sh" 1 "B=2" " boom\n").env =
      [("A", "1")] ∧
    (executeSourceLikeCommand [("A", "1")] "source env.sh" 1 "B=2" " boom\n").errors =
      [("source env.sh", "source env.sh" ++ ": " ++
        (if pyStrip " boom\n" = "" then "command failed" else pyStrip " boom\n"))] :=
  ⟨(c3_nonzero_exit_reports_error [("A", "1")] "source env.sh" 1 "B=2" " boom\n"
      (by decide)).1,
   (c3_nonzero_exit_reports_error [("A", "1")] "source env.sh" 1 "B=2" " boom\n"
      (by decide)).2.2.2.2.1⟩

theorem lookupAssoc_filter_ne {α : Type} (l : List (String × α)) (k : String) :
    lookupAssoc (l.filter (fun p => p.1 ≠ k)) k = none := by
  unfold lookupAssoc
  have hnone : List.find? (fun p : String × α => decide (p.1 = k))
      (l.filter (fun p => p.1 ≠ k)) = none := by
    rw [List.find?_eq_none]
    intro x hx
    have hne : x.1 ≠ k := by simpa using (List.mem_filter.mp hx).2
    simpa using hne
  rw [hnone]
  rfl

/-- C7 counterexample: the claim speaks of "the six file-mutating command
names" but then lists `touch`, `mkdir`, `rm`, `rmdir`, `mv`, `cp`, `ln` —
and the source's `modify_commands` list indeed has seven entries, not six. -/
theorem c7_counterexample :
    modifyCommands = ["touch", "mkdir", "rm", "rmdir", "mv", "cp", "ln"] ∧
    modifyCommands.length = 7 ∧ modifyCommands.length ≠ 6 := by
  refine ⟨rfl, rfl, by decide⟩

/-- C7 (amended): two scans of the same path whose cache key (path plus
modification time) is unchanged return identical results even if the
underlying listing changed, and after a Regular command whose first token is
one of the seven file-mutating names the working directory's cache entry is
gone, so the next scan recomputes from the filesystem. -/
theorem c7_cache_coherence (fs1 fs2 fs : FileSystem) (cache0 cache : ScanCache)
    (path cwd command base : String) (rest : List String)
    (hmt : cacheKey fs1 path = cacheKey fs2 path)
    (htok : pySplitWords (pyStrip command) = base :: rest)
    (hbase : modifyCommands.contains base = true) :
    (scanDirectory fs2 (scanDirectory fs1 cache0 path).2 path).1 =
      (scanDirectory fs1 cache0 path).1 ∧
    lookupAssoc (updateCompletionIfNeeded fs cache cwd command)
      (cacheKey fs cwd) = none ∧
    (scanDirectory fs (updateCompletionIfNeeded fs cache cwd command) cwd).1 =
      freshScan fs cwd := by
  have hupd : updateCompletionIfNeeded fs cache cwd command =
      updateCacheAt fs cache cwd := by
    unfold updateCompletionIfNeeded
    rw [htok]
    dsimp only
    rw [if_pos hbase]
  have hmiss : lookupAssoc (updateCompletionIfNeeded fs cache cwd command)
      (cacheKey fs cwd) = none := by
    rw [hupd]
    exact lookupAssoc_filter_ne cache (cacheKey fs cwd)
  refine ⟨?_, hmiss, ?_⟩
  · unfold scanDirectory
    cases h0 : lookupAssoc cache0 (cacheKey fs1 path) with
    | some r =>
      dsimp only
      rw [← hmt, h0]
    | none =>
      dsimp only
      rw [← hmt, lookupAssoc_setAssoc_self cache0 (cacheKey fs1 path) (freshScan fs1 path)]
  · unfold scanDirectory
    rw [hmiss]

/-- Closed instance of `c7_cache_coherence`: a one-file directory whose
mtime is unchanged while its content changes still returns the first scan's
result, and `touch x` invalidates the cache for the working directory. -/
theorem c7_cache_coherence_witness :
    (scanDirectory
        ⟨fun _ => some [⟨"b", false, true, "m2"⟩], fun _ => some 5⟩
        (scanDirectory
          ⟨fun _ => some [⟨"a", false, true, "m1"⟩], fun _ => some 5⟩
          [] "/d").2 "/d").1 =
      (scanDirectory
        ⟨fun _ => some [⟨"a", false, true, "m1"⟩], fun _ => some 5⟩
        [] "/d").1 ∧
    lookupAssoc
      (updateCompletionIfNeeded
        ⟨fun _ => some [⟨"a", false, true, "m1"⟩], fun _ => some 5⟩
        [("/d:5", ⟨["a"], [], [("a", "m1")]⟩)] "/d" "touch x")
      (cacheKey ⟨fun _ => some [⟨"a", false, true, "m1"⟩], fun _ => some 5⟩ "/d") =
      none ∧
    (scanDirectory ⟨fun _ => some [⟨"a", false, true, "m1"⟩], fun _ => some 5⟩
        (updateCompletionIfNeeded
          ⟨fun _ => some [⟨"a", false, true, "m1"⟩], fun _ => some 5⟩
          [("/d:5", ⟨["a"], [], [("a", "m1")]⟩)] "/d" "touch x") "/d").1 =
      freshScan ⟨fun _ => some [⟨"a", false, true, "m1"⟩], fun _ => some 5⟩ "/d" :=
  c7_cache_coherence
    ⟨fun _ => some [⟨"a", false, true, "m1"⟩], fun _ => some 5⟩
    ⟨fun _ => some [⟨"b", false, true, "m2"⟩], fun _ => some 5⟩
    ⟨fun _ => some [⟨"a", false, true, "m1"⟩], fun _ => some 5⟩
    [] [("/d:5", ⟨["a"], [], [("a", "m1")]⟩)] "/d" "/d" "touch x" "touch" ["x"]
    rfl (by decide) (by decide)

theorem prepareForCommand_attempted_of_flag (env : BridgeEnv) (st : BridgeState)
    (n : String) :
    (prepareForCommand env st n).2 = true →
      n ∈ (prepareForCommand env st n).1.attempted := by
  unfold prepareForCommand
  split
  · intro h
    exact absurd h (by simp)
  · split
    · intro h
      exact absurd h (by simp)
    · cases env.findCompletionFile n with
      | none => intro _; exact List.mem_cons_self n _
      | some script => intro _; exact List.mem_cons_self n _

theorem prepareForCommand_flag_false_of_attempted (env : BridgeEnv)
    (st : BridgeState) (n : String) (h : n ∈ st.attempted) :
    (prepareForCommand env st n).2 = false := by
  have hatt : n ∈ (ensureCompletionMap env st).attempted := by
    unfold ensureCompletionMap
    cases st.completionMap <;> exact h
  unfold prepareForCommand
  by_cases hc : ((ensureCompletionMap env st).completionMap.getD []) ≠ [] ∧
      (lookupAssoc ((ensureCompletionMap env st).completionMap.getD []) n).isSome = true
  · rw [if_pos hc]
  · rw [if_neg hc, if_pos hatt]

theorem prepareForCommand_attempted_mono (env : BridgeEnv) (st : BridgeState)
    (n m : String) (h : m ∈ st.attempted) :
    m ∈ (prepareForCommand env st n).1.attempted := by
  have hatt : m ∈ (ensureCompletionMap env st).attempted := by
    unfold ensureCompletionMap
    cases st.completionMap <;> exact h
  unfold prepareForCommand
  split
  · exact hatt
  · split
    · exact hatt
    · cases env.findCompletionFile n with
      | none => exact List.mem_cons_of_mem _ hatt
      | some script => exact List.mem_cons_of_mem _ hatt

theorem discoveryCount_zero_of_attempted (env : BridgeEnv) (name : String) :
    ∀ (names : List String) (st : BridgeState), name ∈ st.attempted →
      discoveryCount (prepareTrace env st names) name = 0 := by
  intro names
  induction names with
  | nil => intro st _; rfl
  | cons n ns ih =>
    intro st hmem
    unfold prepareTrace discoveryCount
    by_cases hn : n = name
    · subst hn
      have hflag := prepareForCommand_flag_false_of_attempted env st n hmem
      simp only [List.filter, hflag, Bool.and_false]
      exact ih (prepareForCommand env st n).1
        (prepareForCommand_attempted_mono env st n n hmem)
    · simp only [List.filter]
      have : (decide (n = name) && (prepareForCommand env st n).2) = false := by
        simp [hn]
      rw [this]
      exact ih (prepareForCommand env st n).1
        (prepareForCommand_attempted_mono env st n name hmem)

/-- C8: within one session, script discovery for a command name is performed
at most once regardless of success — in any sequence of
`_prepare_for_command` calls, at most one call performs discovery for a
given name, and a name that failed resolution is never retried. -/
theorem c8_discovery_at_most_once (env : BridgeEnv) (st : BridgeState)
    (names : List String) (name : String) :
    discoveryCount (prepareTrace env st names) name ≤ 1 := by
  induction names generalizing st with
  | nil => exact Nat.zero_le 1
  | cons n ns ih =>
    unfold prepareTrace discoveryCount
    by_cases hn : n = name
    · subst hn
      cases hflag : (prepareForCommand env st n).2 with
      | false =>
        simp only [List.filter, hflag, Bool.and_false]
        exact ih (prepareForCommand env st n).1
      | true =>
        simp only [List.filter, hflag, Bool.and_true, decide_True]
        have h0 := discoveryCount_zero_of_attempted env n ns
          (prepareForCommand env st n).1
          (prepareForCommand_attempted_of_flag env st n hflag)
        unfold discoveryCount at h0
        simp only [List.length_cons]
        have hexp : (prepareTrace env (prepareForCommand env st n).1 ns).filter
            (fun p => p.1 = n && p.2) = [] := by
          exact List.length_eq_zero.mp h0
        rw [hexp]
        exact Nat.le_refl 1
    · simp only [List.filter]
      have : (decide (n = name) && (prepareForCommand env st n).2) = false := by
        simp [hn]
      rw [this]
      exact ih (prepareForCommand env st n).1

theorem executeBody_eq_of_ne_exit (hf : Option HandlerFault) (command : String)
    (h : pyStrip command ≠ "exit") :
    executeBody hf command = (do handlerRun hf; pure none) := by
  unfold executeBody
  split_ifs <;> rfl

/-- C1 counterexample: a `KeyboardInterrupt` escaping the handler of `ls` is
caught, but `execute` answers it with an interrupt notice only — no error is
reported and no context record is written, contradicting the claim that
every interrupt is converted into a reported error plus a context record. -/
theorem c1_counterexample :
    (execute (some HandlerFault.interrupt) "ls").1 = none ∧
    (execute (some HandlerFault.interrupt) "ls").2.errors = [] ∧
    (execute (some HandlerFault.interrupt) "ls").2.contexts = [] ∧
    (execute (some HandlerFault.interrupt) "ls").2.interruptNotices = 1 := by
  refine ⟨rfl, rfl, rfl, rfl⟩

/-- C1 (amended): `execute` returns normally for every handler fault; an
exception is converted into a reported error plus a context record, while an
interrupt produces only an interrupt notice (no error, no context record);
the only session-ending outcome is the exact `exit` built-in. -/
theorem c1_execute_fault_handling (hf : Option HandlerFault) (command : String)
    (h1 : pyStrip command ≠ "") (h2 : pyStrip command ≠ "exit") :
    (execute hf command).1 = none ∧
    (∀ m, hf = some (HandlerFault.exception m) →
       (execute hf command).2.errors = [(command, "Error: " ++ m)] ∧
       (execute hf command).2.contexts = [(command, "Error: " ++ m)]) ∧
    (hf = some HandlerFault.interrupt →
       (execute hf command).2.interruptNotices = 1 ∧
       (execute hf command).2.errors = [] ∧
       (execute hf command).2.contexts = []) ∧
    (∀ (hf' : Option HandlerFault) (cmd' : String),
       (execute hf' cmd').1 = some "exit" → pyStrip cmd' = "exit") := by
  have hbody := executeBody_eq_of_ne_exit hf command h2
  refine ⟨?_, ?_, ?_, ?_⟩
  · unfold execute
    rw [if_neg h1, hbody]
    cases hf with
    | none => rfl
    | some f => cases f <;> rfl
  · intro m hm
    subst hm
    unfold execute
    rw [if_neg h1, hbody]
    exact ⟨rfl, rfl⟩
  · intro hm
    subst hm
    unfold execute
    rw [if_neg h1, hbody]
    exact ⟨rfl, rfl, rfl⟩
  · intro hf' cmd' hexit
    by_contra hne
    have hbody' := executeBody_eq_of_ne_exit hf' cmd' hne
    unfold execute at hexit
    by_cases hemp : pyStrip cmd' = ""
    · rw [if_pos hemp] at hexit
      exact Option.noConfusion hexit
    · rw [if_neg hemp, hbody'] at hexit
      cases hf' with
      | none => exact Option.noConfusion hexit
      | some f =>
        cases f with
        | interrupt => exact Option.noConfusion hexit
        | exception m => exact Option.noConfusion hexit

/-- Closed instance of `c1_execute_fault_handling`: a handler exception on
`ls` is converted into a reported error plus a matching context record. -/
theorem c1_execute_fault_handling_witness :
    (execute (some (HandlerFault.exception "boom")) "ls").1 = none ∧
    (execute (some (HandlerFault.exception "boom")) "ls").2.errors =
      [("ls", "Error: " ++ "boom")] ∧
    (execute (some (HandlerFault.exception "boom")) "ls").2.contexts =
      [("ls", "Error: " ++ "boom")] := by
  have h := c1_execute_fault_handling (some (HandlerFault.exception "boom")) "ls"
    (by decide) (by decide)
  exact ⟨h.1, (h.2.1 "boom" rfl).1, (h.2.1 "boom" rfl).2⟩

end SimplCli
